import Mathlib

/-!
Shallow embedding of `coreconfig-softwareupdate-run.py`, a deferral and
enforcement engine for software updates.  External command outputs and
probe results (softwareupdate output, pmset output fields, the console
user reported by SCDynamicStoreCopyConsoleUser, the line count of `w`,
the clock) are inputs of the model; file-system state (the deferral
plist) is threaded explicitly.  Wall-clock timestamps are natural
numbers counting seconds; a day is 86400 seconds.
-/

namespace SWUpdate

/-- Outcome of a command wrapped by cmd_with_timeout: either the combined
output, or the timeout fired (the child is killed and a KeyboardInterrupt
is thrown into the main thread). -/
inductive CmdResult (α : Type) where
  | ok (out : α)
  | timeout
deriving DecidableEq, Repr

/-- Python truthiness of an optional string: None and the empty string are
falsy, every other string is truthy. -/
def truthyStr : Option String → Bool
  | none => false
  | some s => s ≠ ""

/-- Python truthiness of an optional bool: None is falsy. -/
def truthyOptBool : Option Bool → Bool
  | none => false
  | some b => b

/-- Substring test, Python's `needle in haystack` on strings. -/
def containsSubstr (needle hay : String) : Bool :=
  decide (needle.data <:+: hay.data)

/-- The no-network marker line (NO_NETWORK_MSG in the source). -/
def NO_NETWORK_MSG : String :=
  "Can\x27t connect to the Apple Software Update server, because you are not connected to the Internet."

/-- Embeds is_quiet_hours(start, end): the current hour is read from the
clock and passed explicitly.  If start < end the window is the half-open
interval; otherwise the window is taken to span midnight. -/
def is_quiet_hours (start endHour now_hour : ℕ) : Bool :=
  if start < endHour then
    decide (start ≤ now_hour ∧ now_hour < endHour)
  else
    decide (start ≤ now_hour) || decide (now_hour < endHour)

/-- Embeds console_user(): the argument is the result of the
SCDynamicStoreCopyConsoleUser call, `none` when the call returned None
(falsy, replaced by `[None]`), `some u` when it returned a tuple whose
first element is `u`.  The sentinel "loginwindow", None and the empty
string are all normalised to None. -/
def console_user (scResult : Option (Option String)) : Option String :=
  let username : Option String :=
    match scResult with
    | none => none
    | some u => u
  if username = some "loginwindow" ∨ username = none ∨ username = some "" then
    none
  else
    username

/-- Embeds nobody_logged_in(): `wLines` is the output of the `w`
command after strip() and split("\n"); fewer than 3 lines means nobody
is on the console or a tty.  Belt and braces: the console user must
also be None. -/
def nobody_logged_in (wLines : List String) (scResult : Option (Option String)) : Bool :=
  decide (wLines.length < 3) &&
  decide (console_user scResult = none)

/-- Embeds min_battery_level(min): `isLaptop` is the result of
is_a_laptop(), `battLevel` the parse of the pmset battery field (`none`
when the IndexError/ValueError handler fires).  The non-laptop branch of
the Python function only prints and falls off the end, returning None:
that is the `none` of the Option Bool result. -/
def min_battery_level (isLaptop : Bool) (battLevel : Option ℤ) (min : ℤ) : Option Bool :=
  if isLaptop then
    match battLevel with
    | some level => some (decide (level ≥ min))
    | none => some false
  else
    none

/-- Embeds restart_required(updates): some line of the softwareupdate
output contains the substring "[restart]". -/
def restart_required (updates : List String) : Bool :=
  updates.any (fun a => containsSubstr "[restart]" a)

/-- Embeds updates_available(updates): true unless the list of output
lines contains the exact "no new software" line or the no-network line
(Python list membership, an exact line match). -/
def updates_available (updates : List String) : Bool :=
  !(decide ("No new software available." ∈ updates) ||
    decide (NO_NETWORK_MSG ∈ updates))

/-- Embeds printable_updates(list): first comma-delimited field of each
line containing "[restart]", newline-joined. -/
def printable_updates (updates : List String) : String :=
  String.intercalate "\n"
    ((updates.filter (fun a => containsSubstr "[restart]" a)).map
      (fun a => (a.splitOn ",").headD ""))

/-- Seconds in a day, the unit of datetime.timedelta(days = limit). -/
def secondsPerDay : ℕ := 86400

/-- Embeds deferral_ok_until(limit).  The deferral plist is the
`deferFile` argument (`some okUntil` when DEFER_FILE exists with that
DeferOkUntil timestamp); the result pairs the Python return value
(`none` standing for the Python `False`, NotAllowed) with the plist state
after the call. -/
def deferral_ok_until (limit : ℕ) (now : ℕ) (deferFile : Option ℕ) :
    Option ℕ × Option ℕ :=
  match deferFile with
  | some ok_until =>
    if now < ok_until then
      (some ok_until, some ok_until)
    else
      (none, some ok_until)
  | none =>
    let defer_date := now + limit * secondsPerDay
    (some defer_date, some defer_date)

/-- The four script arguments parsed by get_args(). -/
structure Args where
  DEFER_LIMIT : ℕ
  QUIET_HOURS_START : ℕ
  QUIET_HOURS_END : ℕ
  MIN_BATTERY_LEVEL : ℤ
deriving DecidableEq, Repr

/-- Observable side effects of one run, in program order: prompts shown,
files prepared, commands launched.  `timedOut` records that a wrapped
command hit its timeout (the KeyboardInterrupt). -/
inductive Action where
  | checkForUpdates
  | downloadUpdates
  | promptDefer
  | prepIndex
  | forceUpdateOnLogout
  | forceLogoutPrompt
  | friendlyLogout
  | installRecommended
  | removeDeferFile
  | lockLoginWindow
  | reboot
  | timedOut
deriving DecidableEq, Repr

/-- The external world as one invocation observes it: existence of the
QuickAdd lock, outputs or timeouts of the three wrapped softwareupdate
commands (checkOutput carries the lines returned by get_update_list,
i.e. the combined output split on "\n"), the console-user probe, the
stripped and newline-split `w` output, the clock, the answer of the
deferral prompt, and the power probes. -/
structure Env where
  quickaddLockExists : Bool
  checkOutput : CmdResult (List String)
  downloadResult : CmdResult Unit
  installResult : CmdResult Unit
  scResult : Option (Option String)
  wLines : List String
  now : ℕ
  now_hour : ℕ
  userDefers : Bool
  usingACPower : Bool
  isLaptop : Bool
  battLevel : Option ℤ
deriving DecidableEq, Repr

/-- Outcome of a run: the process exit status, the deferral plist state
when the process ends, and the observable actions in order. -/
structure RunResult where
  exitCode : ℕ
  deferFile : Option ℕ
  actions : List Action
deriving DecidableEq, Repr

/-- Embeds unattended_install(min_battery): if on AC power and the
battery gate passes (Python truthiness of min_battery_level), lock the
login window, install recommended updates (wrapped, 3600 s) and reboot;
otherwise only print.  Either way control returns to process_updates,
which falls off the end of the script (exit status 0). -/
def unattended_install (env : Env) (min_battery : ℤ) (deferFile : Option ℕ)
    (acts : List Action) : RunResult :=
  if env.usingACPower &&
     truthyOptBool (min_battery_level env.isLaptop env.battLevel min_battery) then
    match env.installResult with
    | .timeout =>
      { exitCode := 255, deferFile := deferFile,
        actions := acts ++ [.lockLoginWindow, .installRecommended, .timedOut] }
    | .ok _ =>
      { exitCode := 0, deferFile := deferFile,
        actions := acts ++ [.lockLoginWindow, .installRecommended, .reboot] }
  else
    { exitCode := 0, deferFile := deferFile, actions := acts }

/-- Embeds process_updates(args): the whole control flow of one
invocation, with the KeyboardInterrupt of any wrapped command caught at
the top and turned into exit status 255.  `defer0` is the deferral plist
at the start of the run. -/
def process_updates (args : Args) (env : Env) (defer0 : Option ℕ) : RunResult :=
  if env.quickaddLockExists then
    { exitCode := 0, deferFile := defer0, actions := [] }
  else
    match env.checkOutput with
    | .timeout =>
      { exitCode := 255, deferFile := defer0, actions := [.checkForUpdates, .timedOut] }
    | .ok list =>
      if updates_available list then
        match env.downloadResult with
        | .timeout =>
          { exitCode := 255, deferFile := defer0,
            actions := [.checkForUpdates, .downloadUpdates, .timedOut] }
        | .ok _ =>
          if restart_required list then
            if truthyStr (console_user env.scResult) then
              let res := deferral_ok_until args.DEFER_LIMIT env.now defer0
              match res.1 with
              | some _max_defer_date =>
                if env.userDefers then
                  { exitCode := 0, deferFile := res.2,
                    actions := [.checkForUpdates, .downloadUpdates, .promptDefer] }
                else
                  { exitCode := 0, deferFile := res.2,
                    actions := [.checkForUpdates, .downloadUpdates, .promptDefer,
                                .prepIndex, .forceUpdateOnLogout, .friendlyLogout] }
              | none =>
                { exitCode := 0, deferFile := res.2,
                  actions := [.checkForUpdates, .downloadUpdates,
                              .prepIndex, .forceUpdateOnLogout, .forceLogoutPrompt,
                              .friendlyLogout] }
            else
              if nobody_logged_in env.wLines env.scResult &&
                 is_quiet_hours args.QUIET_HOURS_START args.QUIET_HOURS_END env.now_hour then
                unattended_install env args.MIN_BATTERY_LEVEL defer0
                  [.checkForUpdates, .downloadUpdates]
              else
                { exitCode := 0, deferFile := defer0,
                  actions := [.checkForUpdates, .downloadUpdates] }
          else
            match env.installResult with
            | .timeout =>
              { exitCode := 255, deferFile := defer0,
                actions := [.checkForUpdates, .downloadUpdates, .installRecommended,
                            .timedOut] }
            | .ok _ =>
              { exitCode := 0, deferFile := none,
                actions := [.checkForUpdates, .downloadUpdates, .installRecommended,
                            .removeDeferFile] }
      else
        { exitCode := 0, deferFile := none,
          actions := [.checkForUpdates, .removeDeferFile] }

/-- A concrete argument vector: defer 5 days, quiet hours 22-6, minimum
battery 50 percent. -/
def argsEx : Args :=
  { DEFER_LIMIT := 5, QUIET_HOURS_START := 22, QUIET_HOURS_END := 6,
    MIN_BATTERY_LEVEL := 50 }

/-- A concrete environment: a restart-requiring update is found, user
alice is on the console, and the run happens at timestamp 1000000. -/
def envForced : Env :=
  { quickaddLockExists := false
    checkOutput := .ok ["iTunesX-12.3, 100K [restart]"]
    downloadResult := .ok ()
    installResult := .ok ()
    scResult := some (some "alice")
    wLines := ["10:00  up 1 day", "USER TTY", "alice console"]
    now := 1000000
    now_hour := 10
    userDefers := false
    usingACPower := true
    isLaptop := false
    battLevel := none }

/-- A concrete environment in which the QuickAdd lock file exists. -/
def envLocked : Env :=
  { envForced with quickaddLockExists := true }

/-- A concrete environment: a laptop on AC power whose battery-level
parse failed. -/
def envLaptopNoBatt : Env :=
  { envForced with isLaptop := true, battLevel := none, usingACPower := true }

/-- Second component of deferral_ok_until on an existing record: the
plist is never rewritten, whichever branch is taken. -/
theorem deferral_ok_until_preserves (limit now d : ℕ) :
    (deferral_ok_until limit now (some d)).2 = some d := by
  by_cases h : now < d <;> simp [deferral_ok_until, h]

/-- The deferral plist argument of unattended_install is returned
untouched on every branch. -/
theorem unattended_install_deferFile (env : Env) (m : ℤ) (df : Option ℕ)
    (acts : List Action) : (unattended_install env m df acts).deferFile = df := by
  unfold unattended_install
  split
  · split <;> rfl
  · rfl

/-- Claim C1 counterexample: at start = end = 5 and hour = 5 the claim
requires false (empty window) but is_quiet_hours takes the wrap branch,
where 5 ≤ 5 holds, and returns true. -/
theorem quiet_hours_equal_bounds_counterexample : is_quiet_hours 5 5 5 = true := by
  decide

/-- Claim C1 (amended): for start < end the window is the half-open
interval; for start > end it wraps midnight; for start = end the wrap
branch makes every hour a member, so the window is the full day, not
empty. -/
theorem is_quiet_hours_circular_spec (start endHour h : ℕ) :
    (start < endHour →
      (is_quiet_hours start endHour h = true ↔ start ≤ h ∧ h < endHour)) ∧
    (endHour < start →
      (is_quiet_hours start endHour h = true ↔ start ≤ h ∨ h < endHour)) ∧
    (start = endHour → is_quiet_hours start endHour h = true) := by
  refine ⟨fun hc => ?_, fun hc => ?_, fun hc => ?_⟩
  · simp [is_quiet_hours, hc]
  · rw [is_quiet_hours, if_neg (by omega)]
    simp
  · rw [is_quiet_hours, if_neg (by omega)]
    simp
    omega

/-- Claim C1 witness: hour 23 lies in the wrapped window 22-6, hour 12
lies in the plain window 9-17. -/
theorem is_quiet_hours_circular_spec_witness :
    is_quiet_hours 22 6 23 = true ∧ is_quiet_hours 9 17 12 = true := by
  constructor
  · exact ((is_quiet_hours_circular_spec 22 6 23).2.1 (by decide)).2 (Or.inl (by decide))
  · exact ((is_quiet_hours_circular_spec 9 17 12).1 (by decide)).2 ⟨by decide, by decide⟩

/-- Claim C2 (code bug): on a non-portable device min_battery_level
falls off the end of the Python function and returns None, which is
falsy; the unattended-install power gate therefore fails on every
non-laptop, the opposite of the unconditional true the claim states. -/
theorem min_battery_level_nonportable (battLevel : Option ℤ) (min : ℤ) :
    min_battery_level false battLevel min = none ∧
    truthyOptBool (min_battery_level false battLevel min) = false := by
  constructor <;> simp [min_battery_level, truthyOptBool]

/-- Claim C4: with an existing record whose deadline lies in the future,
two successive calls of deferral_ok_until with no intervening clear both
return the stored deadline and leave the record unchanged. -/
theorem deferral_ok_until_idempotent (limit₁ limit₂ now₁ now₂ d : ℕ)
    (h₁ : now₁ < d) (h₂ : now₂ < d) :
    deferral_ok_until limit₁ now₁ (some d) = (some d, some d) ∧
    deferral_ok_until limit₂ now₂ (deferral_ok_until limit₁ now₁ (some d)).2 =
      (some d, some d) := by
  simp [deferral_ok_until, h₁, h₂]

/-- Claim C4 witness: two calls at times 100 and 150 against deadline
200 both return deadline 200. -/
theorem deferral_ok_until_idempotent_witness :
    deferral_ok_until 5 100 (some 200) = (some 200, some 200) ∧
    deferral_ok_until 5 150 (deferral_ok_until 5 100 (some 200)).2 =
      (some 200, some 200) :=
  deferral_ok_until_idempotent 5 5 100 150 200 (by decide) (by decide)

/-- Claim C6: nobody_logged_in is true exactly when both probes agree —
fewer than 3 lines of `w` output and a None console user; in particular
3 or more lines force the result false whatever console_user says. -/
theorem nobody_logged_in_requires_both (wLines : List String)
    (sc : Option (Option String)) :
    (nobody_logged_in wLines sc = true ↔
      (wLines.length < 3 ∧ console_user sc = none)) ∧
    (3 ≤ wLines.length → nobody_logged_in wLines sc = false) := by
  constructor
  · simp [nobody_logged_in]
  · intro h
    have hn : ¬ wLines.length < 3 := by omega
    simp [nobody_logged_in, hn]

/-- Claim C6 witness: three lines of session output with a None console
user still count as somebody logged in. -/
theorem nobody_logged_in_requires_both_witness :
    nobody_logged_in ["10:00 up", "USER TTY", "bob ttys000"] none = false :=
  (nobody_logged_in_requires_both ["10:00 up", "USER TTY", "bob ttys000"] none).2
    (by decide)

/-- Claim C7: on a laptop whose battery parse failed, min_battery_level
returns false for every threshold, and the unattended-install gate
refuses to install. -/
theorem min_battery_level_fail_safe (env : Env) (min : ℤ) (deferFile : Option ℕ)
    (acts : List Action) (hlap : env.isLaptop = true) (hparse : env.battLevel = none) :
    min_battery_level env.isLaptop env.battLevel min = some false ∧
    unattended_install env min deferFile acts =
      { exitCode := 0, deferFile := deferFile, actions := acts } := by
  constructor
  · rw [hlap, hparse]
    simp [min_battery_level]
  · simp [unattended_install, hlap, hparse, min_battery_level, truthyOptBool]

/-- Claim C7 witness: the laptop environment with an unreadable battery
refuses the unattended install at threshold 50. -/
theorem min_battery_level_fail_safe_witness :
    min_battery_level envLaptopNoBatt.isLaptop envLaptopNoBatt.battLevel 50 =
      some false ∧
    unattended_install envLaptopNoBatt 50 (some 500) [] =
      { exitCode := 0, deferFile := some 500, actions := [] } :=
  min_battery_level_fail_safe envLaptopNoBatt 50 (some 500) [] rfl rfl

/-- Claim C9: when the QuickAdd lock file exists the run exits 0 at
once: no command runs, no action is taken, and the deferral plist is
untouched. -/
theorem quickadd_lock_noop (args : Args) (env : Env) (defer0 : Option ℕ)
    (h : env.quickaddLockExists = true) :
    process_updates args env defer0 =
      { exitCode := 0, deferFile := defer0, actions := [] } := by
  simp [process_updates, h]

/-- Claim C9 witness: the locked environment exits 0 with the deferral
record intact and an empty action trace. -/
theorem quickadd_lock_noop_witness :
    process_updates argsEx envLocked (some 500) =
      { exitCode := 0, deferFile := some 500, actions := [] } :=
  quickadd_lock_noop argsEx envLocked (some 500) rfl

/-- Claim C10: console_user maps a missing lookup result, a None
username and the empty username to None, maps the loginwindow sentinel
to None, and returns every other username unchanged. -/
theorem console_user_normalises :
    console_user none = none ∧
    console_user (some none) = none ∧
    console_user (some (some "")) = none ∧
    console_user (some (some "loginwindow")) = none ∧
    ∀ u : String, u ≠ "loginwindow" → u ≠ "" → console_user (some (some u)) = some u := by
  refine ⟨rfl, rfl, by decide, by decide, fun u h₁ h₂ => ?_⟩
  simp [console_user, h₁, h₂]

/-- Case analysis of one run started with an existing deferral record:
either the record survives unchanged, or it was removed, and removal
only happens on paths that never prepare a forced or unattended
install. -/
theorem process_updates_deferFile_cases (args : Args) (env : Env) (d : ℕ) :
    (process_updates args env (some d)).deferFile = some d ∨
    ((process_updates args env (some d)).deferFile = none ∧
      Action.forceUpdateOnLogout ∉ (process_updates args env (some d)).actions ∧
      Action.lockLoginWindow ∉ (process_updates args env (some d)).actions) := by
  unfold process_updates
  dsimp only
  repeat' split
  all_goals first
    | (left; rfl)
    | (left; exact deferral_ok_until_preserves args.DEFER_LIMIT env.now d)
    | (left; exact unattended_install_deferFile env args.MIN_BATTERY_LEVEL (some d) _)
    | (right; exact ⟨rfl, by decide, by decide⟩)

/-- Claim C3 counterexample: a run that initiates a forced
install-at-logout because the deferral is exhausted ends with the
deferral record still present — the ledger is not cleared. -/
theorem forced_install_keeps_deferral_counterexample :
    (process_updates argsEx envForced (some 500)).actions =
      [.checkForUpdates, .downloadUpdates, .prepIndex, .forceUpdateOnLogout,
       .forceLogoutPrompt, .friendlyLogout] ∧
    (process_updates argsEx envForced (some 500)).deferFile = some 500 := by
  constructor <;> decide

/-- Claim C3 (amended): a run that initiates a forced install-at-logout
or an unattended login-window install does not delete the deferral
record: an existing record survives the run unchanged.  Only runs with
no updates, or none requiring a restart, remove it. -/
theorem forced_install_preserves_deferral (args : Args) (env : Env) (d : ℕ)
    (hforced : Action.forceUpdateOnLogout ∈ (process_updates args env (some d)).actions ∨
      Action.lockLoginWindow ∈ (process_updates args env (some d)).actions) :
    (process_updates args env (some d)).deferFile = some d := by
  rcases process_updates_deferFile_cases args env d with h | ⟨_, hf, hl⟩
  · exact h
  · rcases hforced with hm | hm
    · exact absurd hm hf
    · exact absurd hm hl

/-- Claim C3 witness: the forced-logout run of the counterexample
environment keeps its record, via the amended theorem. -/
theorem forced_install_preserves_deferral_witness :
    (process_updates argsEx envForced (some 500)).deferFile = some 500 :=
  forced_install_preserves_deferral argsEx envForced 500 (Or.inl (by decide))

/-- Claim C5: with a console user present and a stored deadline already
passed, deferral_ok_until returns False (NotAllowed) and the run takes
the forced-logout path — index prepared, logout trigger armed, mandatory
prompt, forced logout — and never shows the optional defer prompt. -/
theorem deferral_exhausted_forces_logout (args : Args) (env : Env) (d : ℕ)
    (list : List String)
    (hlock : env.quickaddLockExists = false)
    (hcheck : env.checkOutput = .ok list)
    (hdl : env.downloadResult = .ok ())
    (havail : updates_available list = true)
    (hrestart : restart_required list = true)
    (huser : truthyStr (console_user env.scResult) = true)
    (hpast : d ≤ env.now) :
    (deferral_ok_until args.DEFER_LIMIT env.now (some d)).1 = none ∧
    process_updates args env (some d) =
      { exitCode := 0, deferFile := some d,
        actions := [.checkForUpdates, .downloadUpdates, .prepIndex,
                    .forceUpdateOnLogout, .forceLogoutPrompt, .friendlyLogout] } := by
  have hna : ¬ env.now < d := Nat.not_lt.mpr hpast
  constructor
  · simp [deferral_ok_until, hna]
  · simp [process_updates, hlock, hcheck, hdl, havail, hrestart, huser,
          deferral_ok_until, hna]

/-- Claim C5 witness: deadline 500 has passed at time 1000000, so the
run with alice on the console forces the logout without a defer
prompt. -/
theorem deferral_exhausted_forces_logout_witness :
    (deferral_ok_until argsEx.DEFER_LIMIT envForced.now (some 500)).1 = none ∧
    process_updates argsEx envForced (some 500) =
      { exitCode := 0, deferFile := some 500,
        actions := [.checkForUpdates, .downloadUpdates, .prepIndex,
                    .forceUpdateOnLogout, .forceLogoutPrompt, .friendlyLogout] } :=
  deferral_exhausted_forces_logout argsEx envForced 500
    ["iTunesX-12.3, 100K [restart]"] rfl rfl rfl (by decide) (by decide)
    (by decide) (by decide)

/-- Claim C8: every run exits with status 0 or 255, and exits 255 exactly
when a wrapped command hit its timeout — the KeyboardInterrupt unwinds
every intermediate caller and is caught only at the top of
process_updates. -/
theorem timeout_aborts_run (args : Args) (env : Env) (defer0 : Option ℕ) :
    ((process_updates args env defer0).exitCode = 0 ∨
     (process_updates args env defer0).exitCode = 255) ∧
    ((process_updates args env defer0).exitCode = 255 ↔
      Action.timedOut ∈ (process_updates args env defer0).actions) := by
  unfold process_updates unattended_install
  dsimp only
  repeat' split
  all_goals simp

/-- Claim C10 witness: a real username passes through unchanged. -/
theorem console_user_normalises_witness :
    console_user (some (some "alice")) = some "alice" :=
  console_user_normalises.2.2.2.2 "alice" (by decide) (by decide)

end SWUpdate
